import Mathlib

/-!
Verification development for the tomato-disease classifier service
(`src/main.py`): a shallow embedding of the HDF5 weight-loading path, the
`/health` route and the `/api/analyze` request handler, together with
theorems about the properties the specification records for them.

Conventions of the embedding:
  * numpy arrays become a `Tensor` (a shape together with rational data);
  * Python exceptions become `Except` results, and a `try`/`except` block
    becomes a `match` on such a result;
  * in-place mutation of the layer list during loading becomes explicit
    state passing, with the partially mutated state carried inside the
    `error` constructor so that "whatever was assigned before the
    exception" is visible to the catcher.
-/

set_option autoImplicit false

namespace TomatoML

/-- A numpy array as stored in the weight container: its shape and its
flattened numeric contents. -/
structure Tensor where
  shape : List Nat
  data : List ℚ
deriving DecidableEq

/-- The mutable state of one Keras layer: its name, the shapes of the
parameter tensors it declares (its expected parameter signature), the
tensors currently assigned to it, and a ghost counter recording how many
times `set_weights` has been applied to it (so "`set_weights` was never
called" is observable as an unchanged counter). -/
structure LayerState where
  name : String
  paramShapes : List (List Nat)
  weights : List Tensor
  assignCount : Nat
deriving DecidableEq

/-- Keras `Layer.set_weights`: the supplied list of arrays must match the
layer's expected parameter signature in count and per-position shape,
otherwise a `ValueError` is raised and the layer is left unchanged. -/
def set_weights (l : LayerState) (ws : List Tensor) : Except String LayerState :=
  if ws.map Tensor.shape = l.paramShapes then
    .ok { l with weights := ws, assignCount := l.assignCount + 1 }
  else
    .error ("set_weights shape mismatch for layer " ++ l.name)

/-- One layer's sub-group in the HDF5 container: the decoded
`weight_names` attribute and the named weight datasets it stores. -/
structure H5LayerGroup where
  weight_names : List String
  datasets : List (String × Tensor)
deriving DecidableEq

/-- An HDF5 group holding model weights: the decoded `layer_names`
attribute (empty when the attribute is absent, as `attrs.get(_, [])`
yields) and the per-layer sub-groups. -/
structure H5Group where
  layer_names : List String
  groups : List (String × H5LayerGroup)
deriving DecidableEq

/-- An opened HDF5 file: the optional `model_weights` sub-group and the
top-level group (src/main.py lines 42-45 pick one of the two). -/
structure H5File where
  model_weights : Option H5Group
  root : H5Group
deriving DecidableEq

/-- Lines 42-45: descend into `model_weights` when that sub-group exists,
otherwise treat the file's top level as the weight group. -/
def weightGroupOf (f : H5File) : H5Group :=
  match f.model_weights with
  | some g => g
  | none => f.root

/-- `h5py` item access `group[key]`: the first binding of `key`, or
`none` when the key is absent (in which case the source raises
`KeyError`). -/
def assocFind {α : Type} (key : String) : List (String × α) → Option α
  | [] => none
  | (k, v) :: rest => if k = key then some v else assocFind key rest

/-- Lines 56-58: read the named weight datasets of one layer's sub-group
in the recorded order; a missing name raises `KeyError`. -/
def readWeights (g : H5LayerGroup) : List String → Except String (List Tensor)
  | [] => .ok []
  | n :: ns =>
    match assocFind n g.datasets with
    | none => .error ("KeyError: " ++ n)
    | some w =>
      match readWeights g ns with
      | .error e => .error e
      | .ok ws => .ok (w :: ws)

/-- Lines 51-60, the body of the loop for a single layer: if the layer's
name is in the recorded `layer_names`, open its sub-group, read its
weight tensors, and assign them via `set_weights` when the list is
non-empty; otherwise leave the layer untouched. -/
def loadLayer (wg : H5Group) (l : LayerState) : Except String LayerState :=
  if l.name ∈ wg.layer_names then
    match assocFind l.name wg.groups with
    | none => .error ("KeyError: " ++ l.name)
    | some g =>
      match readWeights g g.weight_names with
      | .error e => .error e
      | .ok layer_weights =>
        if layer_weights = [] then .ok l else set_weights l layer_weights
  else
    .ok l

/-- Lines 50-60: process the layers in declaration order. An exception at
some layer aborts the loop; the `error` value carries the exception
message together with the layer list at that moment — the already
processed prefix keeps its new states, and the current layer and every
later layer keep their old states. -/
def loadLayers (wg : H5Group) : List LayerState → Except (String × List LayerState) (List LayerState)
  | [] => .ok []
  | l :: ls =>
    match loadLayer wg l with
    | .error e => .error (e, l :: ls)
    | .ok l' =>
      match loadLayers wg ls with
      | .error (e, ls') => .error (e, l' :: ls')
      | .ok ls' => .ok (l' :: ls')

/-- The body of the `try` block, lines 41-60: opening the file may itself
fail (with no layer assigned yet), and otherwise the layer loop runs on
the selected weight group. -/
def loadProcedure (openResult : Except String H5File) (init : List LayerState) :
    Except (String × List LayerState) (List LayerState) :=
  match openResult with
  | .error e => .error (e, init)
  | .ok f => loadLayers (weightGroupOf f) init

/-- The layer states after startup together with what was printed. -/
structure LoadOutcome where
  layers : List LayerState
  log : List String
deriving DecidableEq

/-- Line 62. -/
def successLog : List String := ["Model loaded successfully with weights from .h5 file!"]

/-- Lines 67-68. -/
def errorLog (e : String) : List String :=
  ["Error loading model: " ++ e, "Model will run with random weights for testing"]

/-- Lines 40-68, the whole weight-loading procedure: run the `try` body
and catch any exception at the top level, logging the cause and keeping
whatever layer states the body had produced by the time it raised. -/
def loadModel (openResult : Except String H5File) (init : List LayerState) : LoadOutcome :=
  match loadProcedure openResult init with
  | .ok ls => { layers := ls, log := successLog }
  | .error (e, st) => { layers := st, log := errorLog e }

/-! The fixed network architecture of src/main.py lines 20-36, as Keras
names it: `model.layers` lists the fourteen layers after the input layer,
each with the shapes of its parameter tensors (batch-normalization
layers carry gamma, beta, moving mean and moving variance). Initial
weights are left abstract (`[]` = the framework's initialization-time
values, not yet overwritten). -/

def conv2dLayer : LayerState := ⟨"conv2d", [[3, 3, 3, 32], [32]], [], 0⟩

def batchNormLayer : LayerState := ⟨"batch_normalization", [[32], [32], [32], [32]], [], 0⟩

def maxPool2dLayer : LayerState := ⟨"max_pooling2d", [], [], 0⟩

def conv2dOneLayer : LayerState := ⟨"conv2d_1", [[3, 3, 32, 64], [64]], [], 0⟩

def batchNormOneLayer : LayerState := ⟨"batch_normalization_1", [[64], [64], [64], [64]], [], 0⟩

def maxPool2dOneLayer : LayerState := ⟨"max_pooling2d_1", [], [], 0⟩

def conv2dTwoLayer : LayerState := ⟨"conv2d_2", [[3, 3, 64, 128], [128]], [], 0⟩

def batchNormTwoLayer : LayerState := ⟨"batch_normalization_2", [[128], [128], [128], [128]], [], 0⟩

def maxPool2dTwoLayer : LayerState := ⟨"max_pooling2d_2", [], [], 0⟩

def flattenLayer : LayerState := ⟨"flatten", [], [], 0⟩

def dropoutLayer : LayerState := ⟨"dropout", [], [], 0⟩

def denseLayer : LayerState := ⟨"dense", [[32768, 128], [128]], [], 0⟩

def dropoutOneLayer : LayerState := ⟨"dropout_1", [], [], 0⟩

def denseOneLayer : LayerState := ⟨"dense_1", [[128, 10], [10]], [], 0⟩

/-- `model.layers` of the Sequential model (the input layer is not
listed), in declaration order. -/
def modelLayers : List LayerState :=
  [conv2dLayer, batchNormLayer, maxPool2dLayer,
   conv2dOneLayer, batchNormOneLayer, maxPool2dOneLayer,
   conv2dTwoLayer, batchNormTwoLayer, maxPool2dTwoLayer,
   flattenLayer, dropoutLayer, denseLayer, dropoutOneLayer, denseOneLayer]

/-! Structural lemmas about the layer loop. -/

/-- When the layer loop finishes without an exception, every layer of the
result is the successful `loadLayer` image of the corresponding initial
layer. -/
theorem loadLayers_ok_spec (wg : H5Group) :
    ∀ (init out : List LayerState), loadLayers wg init = .ok out →
      List.Forall₂ (fun a b => loadLayer wg a = .ok b) init out := by
  intro init
  induction init with
  | nil =>
    intro out h
    simp only [loadLayers, Except.ok.injEq] at h
    rw [← h]
    exact List.Forall₂.nil
  | cons l ls ih =>
    intro out h
    simp only [loadLayers] at h
    split at h
    · exact absurd h (by simp)
    · rename_i l' h1
      split at h
      · exact absurd h (by simp)
      · rename_i ls' h2
        simp only [Except.ok.injEq] at h
        rw [← h]
        exact List.Forall₂.cons h1 (ih ls' h2)

/-- When the layer loop raises at some layer `x`, the initial list splits
as `pre ++ x :: post`: every layer of `pre` was already reassigned by a
successful `loadLayer`, `x` is the layer whose processing raised, and `x`
and all of `post` are carried unchanged in the partial state. -/
theorem loadLayers_error_spec (wg : H5Group) :
    ∀ (init : List LayerState) (e : String) (st : List LayerState),
      loadLayers wg init = .error (e, st) →
      ∃ pre x post pre',
        init = pre ++ x :: post ∧ st = pre' ++ x :: post ∧
        List.Forall₂ (fun a b => loadLayer wg a = .ok b) pre pre' ∧
        loadLayer wg x = .error e := by
  intro init
  induction init with
  | nil => intro e st h; simp [loadLayers] at h
  | cons l ls ih =>
    intro e st h
    simp only [loadLayers] at h
    split at h
    · rename_i e0 h1
      simp only [Except.error.injEq, Prod.mk.injEq] at h
      obtain ⟨rfl, rfl⟩ := h
      exact ⟨[], l, ls, [], rfl, rfl, List.Forall₂.nil, h1⟩
    · rename_i l' h1
      split at h
      · rename_i e0 ls' h2
        simp only [Except.error.injEq, Prod.mk.injEq] at h
        obtain ⟨rfl, rfl⟩ := h
        obtain ⟨pre, x, post, pre', hinit, hst, hrel, herr⟩ := ih e0 ls' h2
        exact ⟨l :: pre, x, post, l' :: pre',
          by rw [hinit]; rfl, by rw [hst]; rfl,
          List.Forall₂.cons h1 hrel, herr⟩
      · exact absurd h (by simp)

/-- Every layer of the state `loadModel` leaves behind is either the
successful `loadLayer` image of the corresponding initial layer or that
initial layer unchanged. -/
theorem loadModel_layers_rel (f : H5File) (init : List LayerState) :
    List.Forall₂ (fun a b => loadLayer (weightGroupOf f) a = .ok b ∨ b = a)
      init (loadModel (.ok f) init).layers := by
  cases h : loadLayers (weightGroupOf f) init with
  | ok ls =>
    have hl : (loadModel (.ok f) init).layers = ls := by
      simp [loadModel, loadProcedure, h]
    rw [hl]
    exact (loadLayers_ok_spec _ _ _ h).imp fun a b hab => Or.inl hab
  | error p =>
    obtain ⟨e, st⟩ := p
    have hl : (loadModel (.ok f) init).layers = st := by
      simp [loadModel, loadProcedure, h]
    rw [hl]
    obtain ⟨pre, x, post, pre', hinit, hst, hrel, _⟩ := loadLayers_error_spec _ _ _ _ h
    rw [hinit, hst]
    exact List.rel_append (hrel.imp fun a b hab => Or.inl hab)
      (List.forall₂_same.mpr fun a _ => Or.inr rfl)

/-- A layer on which `loadLayer` acts as the identity keeps its initial
state in the final outcome, wherever it sits and however the rest of the
load went. -/
theorem loadModel_fixes_layer (f : H5File) (init : List LayerState) (i : Nat)
    (hi : i < init.length)
    (hload : loadLayer (weightGroupOf f) (init.get ⟨i, hi⟩) = .ok (init.get ⟨i, hi⟩)) :
    (loadModel (.ok f) init).layers.get? i = some (init.get ⟨i, hi⟩) := by
  have hrel := loadModel_layers_rel f init
  rw [List.forall₂_iff_get] at hrel
  obtain ⟨hlen, hget⟩ := hrel
  have hi2 : i < (loadModel (.ok f) init).layers.length := hlen ▸ hi
  have hcase := hget i hi hi2
  have heq : (loadModel (.ok f) init).layers.get ⟨i, hi2⟩ = init.get ⟨i, hi⟩ := by
    rcases hcase with h | h
    · rw [hload] at h
      injection h with h'
      exact h'.symm
    · exact h
  rw [List.get?_eq_get hi2, heq]

/-! Concrete weight containers used to exercise the loader. -/

/-- Stored tensor matching `conv2d`'s kernel slot. -/
def cxConvKernel : Tensor := ⟨[3, 3, 3, 32], [1]⟩

/-- Stored tensor matching `conv2d`'s bias slot. -/
def cxConvBias : Tensor := ⟨[32], [2]⟩

/-- Stored tensor whose shape matches no slot of `batch_normalization`. -/
def cxBadGamma : Tensor := ⟨[999], [3]⟩

/-- Stored tensor matching `conv2d_1`'s kernel slot. -/
def cxConvOneKernel : Tensor := ⟨[3, 3, 32, 64], [4]⟩

/-- Stored tensor matching `conv2d_1`'s bias slot. -/
def cxConvOneBias : Tensor := ⟨[64], [5]⟩

/-- A container (with a `model_weights` sub-group) recording three layers:
`conv2d` with matching tensors, `batch_normalization` with a mismatched
tensor list, and `conv2d_1` with matching tensors again. -/
def cxFile : H5File :=
  ⟨some ⟨["conv2d", "batch_normalization", "conv2d_1"],
    [("conv2d", ⟨["kernel:0", "bias:0"],
        [("kernel:0", cxConvKernel), ("bias:0", cxConvBias)]⟩),
     ("batch_normalization", ⟨["gamma:0"], [("gamma:0", cxBadGamma)]⟩),
     ("conv2d_1", ⟨["kernel:0", "bias:0"],
        [("kernel:0", cxConvOneKernel), ("bias:0", cxConvOneBias)]⟩)]⟩,
   ⟨[], []⟩⟩

/-- The exception message `set_weights` produces on the mismatched layer
of `cxFile`. -/
def cxErr : String := "set_weights shape mismatch for layer batch_normalization"

/-- `conv2d` after the one successful assignment of the `cxFile` run. -/
def cxLoadedConv : LayerState :=
  { conv2dLayer with weights := [cxConvKernel, cxConvBias], assignCount := 1 }

/-- The layer states at the moment the `cxFile` run raises: `conv2d`
assigned, everything from `batch_normalization` on untouched. -/
def cxSt : List LayerState :=
  [cxLoadedConv, batchNormLayer, maxPool2dLayer,
   conv2dOneLayer, batchNormOneLayer, maxPool2dOneLayer,
   conv2dTwoLayer, batchNormTwoLayer, maxPool2dTwoLayer,
   flattenLayer, dropoutLayer, denseLayer, dropoutOneLayer, denseOneLayer]

/-- A container (without a `model_weights` sub-group) recording the
`flatten` layer with an empty `weight_names` list. -/
def cx10File : H5File := ⟨none, ⟨["flatten"], [("flatten", ⟨[], []⟩)]⟩⟩

/-! The claims. -/

/-- C1, counterexample: in the `cxFile` run, `conv2d_1` is present in the
container's recorded layer-name list and its stored tensors match its
expected parameter signature, yet after loading conv2d_1 is still at its
initialization state — its weights were never assigned — because the
mismatch at `batch_normalization` aborted the whole loop. The claim that
only the mismatched layer's assignment fails, and every other matching
layer is still assigned, is therefore false of the code. -/
theorem c1_counterexample :
    "conv2d_1" ∈ (weightGroupOf cxFile).layer_names ∧
    [cxConvOneKernel, cxConvOneBias].map Tensor.shape = conv2dOneLayer.paramShapes ∧
    (loadModel (.ok cxFile) modelLayers).layers.get? 3 = some conv2dOneLayer ∧
    conv2dOneLayer.weights ≠ [cxConvOneKernel, cxConvOneBias] := by
  refine ⟨by decide, by decide, ?_, by decide⟩
  rfl

/-- C1, amended: when a layer's stored tensors mismatch its expected
parameter signature (or its processing otherwise raises), assignment
fails for that layer and the load stops there: layers earlier in
declaration order were already assigned (each the successful `loadLayer`
image of its initial state), while the failing layer and every later
layer keep their previous values; the loader still returns an outcome, so
the network remains usable. -/
theorem c1_mismatch_aborts_rest (f : H5File) (init : List LayerState) (e : String)
    (st : List LayerState) (h : loadLayers (weightGroupOf f) init = .error (e, st)) :
    loadModel (.ok f) init = ⟨st, errorLog e⟩ ∧
    ∃ pre x post pre',
      init = pre ++ x :: post ∧
      st = pre' ++ x :: post ∧
      pre'.length = pre.length ∧
      List.Forall₂ (fun a b => loadLayer (weightGroupOf f) a = .ok b) pre pre' ∧
      loadLayer (weightGroupOf f) x = .error e := by
  refine ⟨by simp [loadModel, loadProcedure, h], ?_⟩
  obtain ⟨pre, x, post, pre', hinit, hst, hrel, herr⟩ := loadLayers_error_spec _ _ _ _ h
  exact ⟨pre, x, post, pre', hinit, hst, hrel.length_eq.symm, hrel, herr⟩

/-- Witness for `c1_mismatch_aborts_rest` at the concrete `cxFile` run on
the network's layers. -/
theorem c1_mismatch_aborts_rest_witness :
    loadModel (.ok cxFile) modelLayers = ⟨cxSt, errorLog cxErr⟩ ∧
    ∃ pre x post pre',
      modelLayers = pre ++ x :: post ∧
      cxSt = pre' ++ x :: post ∧
      pre'.length = pre.length ∧
      List.Forall₂ (fun a b => loadLayer (weightGroupOf cxFile) a = .ok b) pre pre' ∧
      loadLayer (weightGroupOf cxFile) x = .error cxErr :=
  c1_mismatch_aborts_rest cxFile modelLayers cxErr cxSt (by rfl)

/-- C3: any exception raised anywhere during the weight-loading procedure
(opening the container included) is caught at the top level of the
loader, the cause is logged, and the outcome keeps exactly the layer
states that existed when the exception was raised: either nothing was
assigned yet (open failure) or the layers before the raising one carry
their newly assigned weights and the rest are unchanged. `loadModel` is a
total function into `LoadOutcome`, so no exception propagates past it. -/
theorem c3_loader_catches_all (openRes : Except String H5File) (init : List LayerState)
    (e : String) (st : List LayerState)
    (h : loadProcedure openRes init = .error (e, st)) :
    loadModel openRes init = ⟨st, errorLog e⟩ ∧
    ("Error loading model: " ++ e) ∈ (loadModel openRes init).log ∧
    (st = init ∨ ∃ f pre x post pre',
      openRes = .ok f ∧
      init = pre ++ x :: post ∧
      st = pre' ++ x :: post ∧
      List.Forall₂ (fun a b => loadLayer (weightGroupOf f) a = .ok b) pre pre' ∧
      loadLayer (weightGroupOf f) x = .error e) := by
  have h1 : loadModel openRes init = ⟨st, errorLog e⟩ := by
    simp [loadModel, h]
  refine ⟨h1, by rw [h1]; simp [errorLog], ?_⟩
  cases openRes with
  | error e0 =>
    left
    simp only [loadProcedure, Except.error.injEq, Prod.mk.injEq] at h
    exact h.2.symm
  | ok f =>
    right
    simp only [loadProcedure] at h
    obtain ⟨pre, x, post, pre', hinit, hst, hrel, herr⟩ := loadLayers_error_spec _ _ _ _ h
    exact ⟨f, pre, x, post, pre', rfl, hinit, hst, hrel, herr⟩

/-- Witness for `c3_loader_catches_all`: the container file is missing,
and startup continues with the untouched initialization-time layers. -/
theorem c3_loader_catches_all_witness :
    loadModel (.error "No such file: best_tomato_model.h5") modelLayers =
      ⟨modelLayers, errorLog "No such file: best_tomato_model.h5"⟩ ∧
    ("Error loading model: " ++ "No such file: best_tomato_model.h5") ∈
      (loadModel (.error "No such file: best_tomato_model.h5") modelLayers).log ∧
    (modelLayers = modelLayers ∨ ∃ f pre x post pre',
      (Except.error "No such file: best_tomato_model.h5" : Except String H5File) = .ok f ∧
      modelLayers = pre ++ x :: post ∧
      modelLayers = pre' ++ x :: post ∧
      List.Forall₂ (fun a b => loadLayer (weightGroupOf f) a = .ok b) pre pre' ∧
      loadLayer (weightGroupOf f) x = .error "No such file: best_tomato_model.h5") :=
  c3_loader_catches_all (.error "No such file: best_tomato_model.h5") modelLayers
    "No such file: best_tomato_model.h5" modelLayers rfl

/-- C4: a layer whose name is absent from the container's recorded
layer-name list is skipped by the loop body (`loadLayer` returns it
unchanged, raising nothing), and in the final outcome it still holds
exactly its pre-load initialization state. -/
theorem c4_absent_layer_untouched (f : H5File) (init : List LayerState) (i : Nat)
    (hi : i < init.length)
    (habs : (init.get ⟨i, hi⟩).name ∉ (weightGroupOf f).layer_names) :
    loadLayer (weightGroupOf f) (init.get ⟨i, hi⟩) = .ok (init.get ⟨i, hi⟩) ∧
    (loadModel (.ok f) init).layers.get? i = some (init.get ⟨i, hi⟩) := by
  have hload : loadLayer (weightGroupOf f) (init.get ⟨i, hi⟩) = .ok (init.get ⟨i, hi⟩) := by
    unfold loadLayer
    rw [if_neg habs]
  exact ⟨hload, loadModel_fixes_layer f init i hi hload⟩

/-- Witness for `c4_absent_layer_untouched`: `max_pooling2d` is not
recorded in `cxFile`, and survives the (failing) load untouched. -/
theorem c4_absent_layer_untouched_witness :
    loadLayer (weightGroupOf cxFile) maxPool2dLayer = .ok maxPool2dLayer ∧
    (loadModel (.ok cxFile) modelLayers).layers.get? 2 = some maxPool2dLayer :=
  c4_absent_layer_untouched cxFile modelLayers 2 (by decide) (by decide)

/-- C10: a layer that is recorded in the container's layer-name list but
whose sub-group records an empty `weight_names` list is left alone: the
collected `layer_weights` list is empty, so `set_weights` is never called
(the layer's state, its `assignCount` ghost field included, is returned
unchanged) and the layer keeps its initialization-time parameters in the
final outcome. -/
theorem c10_empty_weight_names_no_assign (f : H5File) (init : List LayerState) (i : Nat)
    (hi : i < init.length) (lg : H5LayerGroup)
    (hname : (init.get ⟨i, hi⟩).name ∈ (weightGroupOf f).layer_names)
    (hgrp : assocFind (init.get ⟨i, hi⟩).name (weightGroupOf f).groups = some lg)
    (hempty : lg.weight_names = []) :
    loadLayer (weightGroupOf f) (init.get ⟨i, hi⟩) = .ok (init.get ⟨i, hi⟩) ∧
    (loadModel (.ok f) init).layers.get? i = some (init.get ⟨i, hi⟩) := by
  have hload : loadLayer (weightGroupOf f) (init.get ⟨i, hi⟩) = .ok (init.get ⟨i, hi⟩) := by
    unfold loadLayer
    rw [if_pos hname, hgrp]
    simp [readWeights, hempty]
  exact ⟨hload, loadModel_fixes_layer f init i hi hload⟩

/-- Witness for `c10_empty_weight_names_no_assign`: `flatten` is recorded
in `cx10File` with no weight tensors and keeps its initial state. -/
theorem c10_empty_weight_names_no_assign_witness :
    loadLayer (weightGroupOf cx10File) flattenLayer = .ok flattenLayer ∧
    (loadModel (.ok cx10File) modelLayers).layers.get? 9 = some flattenLayer :=
  c10_empty_weight_names_no_assign cx10File modelLayers 9 (by decide) ⟨[], []⟩
    (by decide) rfl rfl

/-! The inference handler (src/main.py lines 98-162). -/

/-- One stored pixel of a PIL image in RGB mode: three uint8 channels. -/
structure RGB where
  r : Fin 256
  g : Fin 256
  b : Fin 256
deriving DecidableEq

/-- A decoded PIL image: spatial dimensions together with pixel storage
in one of the color modes the embedding distinguishes (true-color,
single-channel grayscale, or true-color with an alpha channel). -/
inductive PILImage : Type where
  | rgb (w h : Nat) (px : Nat → Nat → RGB)
  | gray (w h : Nat) (px : Nat → Nat → Fin 256)
  | rgba (w h : Nat) (px : Nat → Nat → RGB × Fin 256)

/-- An image forced to three color channels, of arbitrary dimensions. -/
structure RGBImage where
  width : Nat
  height : Nat
  px : Nat → Nat → RGB

/-- Line 119, `img.convert('RGB')`: force the image to three channels —
grayscale broadcasts its single channel, RGBA drops the alpha channel. -/
def PILImage.convertRGB : PILImage → RGBImage
  | .rgb w h px => ⟨w, h, px⟩
  | .gray w h px => ⟨w, h, fun i j => ⟨px i j, px i j, px i j⟩⟩
  | .rgba w h px => ⟨w, h, fun i j => (px i j).1⟩

/-- Line 120, `img.resize((128, 128))`: PIL's resampling kernel is
abstracted as an arbitrary function, but its output is an RGB (uint8)
image of the requested 128x128 size, which is all the downstream code
relies on. -/
def Resampler : Type := RGBImage → Fin 128 → Fin 128 → RGB

/-- Lines 118-123: decode (already done), convert to RGB, resize to
128x128 and scale by `/ 255.0`, producing the 128x128x3 array the model
consumes (rows, then columns, then channels). -/
def preprocess (resize : Resampler) (img : PILImage) : List (List (List ℚ)) :=
  let small := resize img.convertRGB
  List.ofFn fun i : Fin 128 =>
    List.ofFn fun j : Fin 128 =>
      [((small i j).r : ℚ) / 255, ((small i j).g : ℚ) / 255, ((small i j).b : ℚ) / 255]

/-- Python's built-in `round` to an integer: round half to even. -/
def pyRoundInt (x : ℚ) : ℤ :=
  if x - ⌊x⌋ < 1 / 2 then ⌊x⌋
  else if 1 / 2 < x - ⌊x⌋ then ⌊x⌋ + 1
  else if ⌊x⌋ % 2 = 0 then ⌊x⌋ else ⌊x⌋ + 1

/-- Python's `round(x, 2)`: round to two decimal places, half to even. -/
def round2 (x : ℚ) : ℚ := (pyRoundInt (x * 100) : ℚ) / 100

/-- Line 132-143: the fixed class labels from training. -/
def class_names : List String :=
  ["Bacterial_spot", "Early_blight", "Late_blight", "Leaf_Mold",
   "Septoria_leaf_spot", "Spider_mites", "Target_Spot",
   "Yellow_Leaf_Curl_Virus", "Tomato_mosaic_virus", "Healthy"]

/-- `class_names[i]` for an index known to be in range. -/
def classAt (i : Fin 10) : String := class_names.get ⟨i.1, i.isLt⟩

/-- Line 128, `np.argmax(prediction[0])`: the first index attaining the
maximum of the prediction vector. -/
def npArgmax (p : Fin 10 → ℚ) : Fin 10 :=
  (List.finRange 10).foldl (fun best i => if p best < p i then i else best) 0

/-- Line 129, `np.max(prediction[0])`: the maximum of the prediction
vector. -/
def npMax (p : Fin 10 → ℚ) : ℚ :=
  (List.finRange 10).foldl (fun m i => max m (p i)) (p 0)

/-- The JSON body built at lines 148-159. `all_probabilities` is the dict
comprehension of lines 153-156 as an ordered association list. -/
structure AnalyzeResponse where
  disease : String
  confidence : ℚ
  is_healthy : Bool
  predicted_class_index : Nat
  all_probabilities : List (String × ℚ)
  message : String
  model_source : String
deriving DecidableEq

/-- Lines 127-159: from the forward pass's probability vector, take the
arg-max class and its probability as confidence (as a percentage rounded
to two decimals), decide healthiness by comparing the label with
`'Healthy'`, and tabulate every class's rounded percentage. -/
def buildResponse (prediction : Fin 10 → ℚ) : AnalyzeResponse :=
  let predicted_class := npArgmax prediction
  let confidence := npMax prediction * 100
  let disease_name := classAt predicted_class
  { disease := disease_name
    confidence := round2 confidence
    is_healthy := disease_name == "Healthy"
    predicted_class_index := predicted_class.1
    all_probabilities :=
      List.ofFn fun i : Fin 10 => (classAt i, round2 (prediction i * 100))
    message := "Analysis complete"
    model_source := "best_tomato_model.h5 (trained)" }

/-- A Python exception as the analyze handler can see one: either an
`HTTPException` carrying a status code and detail, or any other
exception carrying its message. -/
inductive PyExc : Type where
  | httpException (status : Nat) (detail : String)
  | exc (msg : String)
deriving DecidableEq

/-- `str(e)` for the exceptions above (Starlette renders an
`HTTPException` as `"status: detail"`). -/
def strOfExc : PyExc → String
  | .httpException s d => toString s ++ ": " ++ d
  | .exc m => m

/-- Python `str.startswith`, as a prefix test on the character
sequences of the two strings. -/
def pyStartsWith (s pre : String) : Bool := pre.data.isPrefixOf s.data

/-- The uploaded file as the handler sees it: its declared content type
and the result of decoding its bytes with `Image.open` (which raises on
bytes that are not a decodable image). -/
structure UploadFile where
  content_type : String
  decodeResult : Except String PILImage

/-- Lines 113-159, the body of the `try` block: reject content types not
starting with `image/` by raising `HTTPException(400)`, decode the bytes
(propagating the decoder's exception), preprocess, run the forward pass
(`model.predict`, abstracted as a function from the preprocessed array to
the probability vector) and build the response. -/
def analyzeBody (resize : Resampler) (predict : List (List (List ℚ)) → Fin 10 → ℚ)
    (file : UploadFile) : Except PyExc AnalyzeResponse :=
  if ¬ pyStartsWith file.content_type "image/" then
    .error (.httpException 400 "File must be an image")
  else
    match file.decodeResult with
    | .error m => .error (.exc m)
    | .ok img => .ok (buildResponse (predict (preprocess resize img)))

/-- What FastAPI sends back for the analyze route. -/
inductive HttpAnswer : Type where
  | success (status : Nat) (body : AnalyzeResponse)
  | failure (status : Nat) (detail : String)
deriving DecidableEq

/-- The HTTP status of an answer. -/
def HttpAnswer.statusCode : HttpAnswer → Nat
  | .success s _ => s
  | .failure s _ => s

/-- Lines 107-162, the whole `/api/analyze` handler: a normal return
becomes a 200 response, while `except Exception as e` catches every
exception the body raised — the 400 `HTTPException` of line 114
included — and re-raises `HTTPException(500, "Error: " + str(e))`,
which FastAPI renders as a 500 response. -/
def analyze_image (resize : Resampler) (predict : List (List (List ℚ)) → Fin 10 → ℚ)
    (file : UploadFile) : HttpAnswer :=
  match analyzeBody resize predict file with
  | .ok r => .success 200 r
  | .error e => .failure 500 ("Error: " ++ strOfExc e)

/-- The JSON body of `GET /health` (lines 98-105). -/
structure HealthResponse where
  status : String
  model_loaded : Bool
  model_params : Nat
  model_source : String
deriving DecidableEq

/-- `model.count_params()`: the total number of scalar parameters the
architecture declares. -/
def countParams (layers : List LayerState) : Nat :=
  (layers.map fun l => (l.paramShapes.map fun s => s.foldr (· * ·) 1).sum).sum

/-- Lines 98-105: the health route. It unconditionally returns the
literal body with `model_loaded: True`; a plain dict return is rendered
by FastAPI with HTTP status 200. -/
def health_check (layers : List LayerState) : Nat × HealthResponse :=
  (200, ⟨"healthy", true, countParams layers, "h5_weights"⟩)

/-! Arithmetic helpers for the handler theorems. -/

/-- Rounding to the nearest integer (ties to even) moves a rational by at
most one half. -/
theorem pyRoundInt_abs_le (y : ℚ) : |(pyRoundInt y : ℚ) - y| ≤ 1 / 2 := by
  have h0 : (⌊y⌋ : ℚ) ≤ y := Int.floor_le y
  have h1 : y < ⌊y⌋ + 1 := Int.lt_floor_add_one y
  unfold pyRoundInt
  split_ifs with ha hb hc
  · rw [abs_sub_comm, abs_of_nonneg (by linarith)]
    linarith
  · push_cast
    rw [abs_of_nonneg (by linarith)]
    linarith
  · rw [abs_sub_comm, abs_of_nonneg (by linarith)]
    linarith
  · push_cast
    rw [abs_of_nonneg (by linarith)]
    linarith

/-- Rounding to two decimal places moves a rational by at most `1/200`. -/
theorem round2_abs_le (x : ℚ) : |round2 x - x| ≤ 1 / 200 := by
  have h := pyRoundInt_abs_le (x * 100)
  have heq : round2 x - x = ((pyRoundInt (x * 100) : ℚ) - x * 100) / 100 := by
    unfold round2
    ring
  rw [heq, abs_div, abs_of_nonneg (by norm_num : (0 : ℚ) ≤ 100),
    div_le_iff₀ (by norm_num : (0 : ℚ) < 100)]
  linarith

/-- Folding `max` and folding the first-arg-max index over the same list
stay in step: the running maximum is always the value at the running
best index. -/
theorem foldl_max_argmax (p : Fin 10 → ℚ) :
    ∀ (L : List (Fin 10)) (b : Fin 10),
      L.foldl (fun m i => max m (p i)) (p b) =
        p (L.foldl (fun best i => if p best < p i then i else best) b) := by
  intro L
  induction L with
  | nil => intro b; rfl
  | cons a t ih =>
    intro b
    simp only [List.foldl_cons]
    by_cases h : p b < p a
    · rw [if_pos h, max_eq_right h.le]
      exact ih a
    · rw [if_neg h, max_eq_left (le_of_not_lt h)]
      exact ih b

/-- `np.max` of the prediction vector is its value at the `np.argmax`
index. -/
theorem npMax_eq (p : Fin 10 → ℚ) : npMax p = p (npArgmax p) :=
  foldl_max_argmax p (List.finRange 10) 0

/-- `'Healthy'` occurs in the class-name list exactly at index 9. -/
theorem classAt_eq_healthy_iff : ∀ i : Fin 10, classAt i = "Healthy" ↔ i = 9 := by
  decide

/-- Looking the label of class `i0` up in the per-class table built from
`classAt` finds exactly the value tabulated for `i0` (the labels are
pairwise distinct). -/
theorem assocFind_classAt (v : Fin 10 → ℚ) (i0 : Fin 10) :
    assocFind (classAt i0) (List.ofFn fun i : Fin 10 => (classAt i, v i)) = some (v i0) := by
  fin_cases i0 <;> rfl

/-- C2 is a bug in the source: for an upload whose content type does not
start with `image/`, line 114 raises `HTTPException(400)`, but that
exception is raised inside the `try` block whose `except Exception`
clause (line 161) catches it and re-raises `HTTPException(500, ...)`, so
the response the client sees is a 500 carrying the stringified 400, not
the 400 the code intended. This holds for every resampler, every forward
pass and every decode result. -/
theorem c2_nonimage_upload_gets_500 (resize : Resampler)
    (predict : List (List (List ℚ)) → Fin 10 → ℚ)
    (decodeRes : Except String PILImage) :
    analyze_image resize predict ⟨"text/plain", decodeRes⟩ =
      .failure 500 "Error: 400: File must be an image" ∧
    (analyze_image resize predict ⟨"text/plain", decodeRes⟩).statusCode ≠ 400 := by
  have h : analyze_image resize predict ⟨"text/plain", decodeRes⟩ =
      .failure 500 "Error: 400: File must be an image" := rfl
  exact ⟨h, by rw [h]; decide⟩

/-- C5: for every decoded image — of any dimensions and any of the color
modes, RGB or not — and every resampling kernel, the preprocessing step
produces a 128x128x3 array all of whose entries lie in `[0, 1]`. -/
theorem c5_preprocess_shape_range (resize : Resampler) (img : PILImage) :
    (preprocess resize img).length = 128 ∧
    ∀ row ∈ preprocess resize img, row.length = 128 ∧
      ∀ pix ∈ row, pix.length = 3 ∧ ∀ v ∈ pix, 0 ≤ v ∧ v ≤ 1 := by
  have hbound : ∀ c : Fin 256, 0 ≤ (c : ℚ) / 255 ∧ (c : ℚ) / 255 ≤ 1 := by
    intro c
    constructor
    · positivity
    · rw [div_le_one (by norm_num)]
      have hc : (c : ℕ) ≤ 255 := Nat.lt_succ_iff.mp c.isLt
      exact_mod_cast hc
  constructor
  · simp only [preprocess, List.length_ofFn]
  · intro row hrow
    simp only [preprocess, List.mem_ofFn] at hrow
    obtain ⟨i, rfl⟩ := hrow
    refine ⟨by simp only [List.length_ofFn], ?_⟩
    intro pix hpix
    simp only [List.mem_ofFn] at hpix
    obtain ⟨j, rfl⟩ := hpix
    refine ⟨rfl, ?_⟩
    intro v hv
    simp only [List.mem_cons, List.not_mem_nil, or_false] at hv
    rcases hv with rfl | rfl | rfl
    · exact hbound _
    · exact hbound _
    · exact hbound _

/-- C6: for every probability vector the softmax output layer can
produce (nonnegative entries summing to one), the `all_probabilities`
mapping of the response carries exactly the ten fixed class labels as
its keys (which are pairwise distinct), and its ten values sum to 100
within `1/10`. -/
theorem c6_probability_mapping (p : Fin 10 → ℚ) (_hpos : ∀ i, 0 ≤ p i)
    (hsum : ∑ i, p i = 1) :
    (buildResponse p).all_probabilities.map Prod.fst = class_names ∧
    class_names.Nodup ∧
    |((buildResponse p).all_probabilities.map Prod.snd).sum - 100| ≤ 1 / 10 := by
  refine ⟨?_, by decide, ?_⟩
  · show (List.ofFn fun i : Fin 10 =>
        (classAt i, round2 (p i * 100))).map Prod.fst = class_names
    rw [List.map_ofFn]
    show List.ofFn (fun i : Fin 10 => classAt i) = class_names
    decide
  · have hvals : (buildResponse p).all_probabilities.map Prod.snd =
        List.ofFn fun i : Fin 10 => round2 (p i * 100) := by
      show (List.ofFn fun i : Fin 10 =>
          (classAt i, round2 (p i * 100))).map Prod.snd = _
      rw [List.map_ofFn]
      rfl
    rw [hvals, List.sum_ofFn]
    have h100 : ∑ i : Fin 10, p i * 100 = 100 := by
      rw [← Finset.sum_mul, hsum]
      norm_num
    calc |(∑ i : Fin 10, round2 (p i * 100)) - 100|
        = |∑ i : Fin 10, (round2 (p i * 100) - p i * 100)| := by
          rw [Finset.sum_sub_distrib, h100]
      _ ≤ ∑ i : Fin 10, |round2 (p i * 100) - p i * 100| :=
          Finset.abs_sum_le_sum_abs _ _
      _ ≤ ∑ _i : Fin 10, (1 : ℚ) / 200 :=
          Finset.sum_le_sum fun i _ => round2_abs_le _
      _ ≤ 1 / 10 := by
          simp [Finset.sum_const, Finset.card_univ]
          norm_num

/-- Witness for `c6_probability_mapping` at the uniform distribution. -/
theorem c6_probability_mapping_witness :
    (buildResponse fun _ => (1 : ℚ) / 10).all_probabilities.map Prod.fst = class_names ∧
    class_names.Nodup ∧
    |(((buildResponse fun _ => (1 : ℚ) / 10).all_probabilities.map Prod.snd).sum) - 100| ≤
      1 / 10 :=
  c6_probability_mapping (fun _ => (1 : ℚ) / 10) (fun _ => by norm_num)
    (by simp [Finset.sum_const, Finset.card_univ])

/-- C7: the health route returns HTTP 200 with `model_loaded: true` for
every possible outcome of the startup weight load — in particular when
opening the container failed or the layer loop raised — because its body
is a constant in everything the loader influences. -/
theorem c7_health_always_loaded (openRes : Except String H5File) (init : List LayerState) :
    (health_check (loadModel openRes init).layers).1 = 200 ∧
    (health_check (loadModel openRes init).layers).2.model_loaded = true :=
  ⟨rfl, rfl⟩

/-- C8: the `is_healthy` flag of a successful analyze response is `true`
exactly when the arg-max class index is 9, equivalently exactly when the
returned disease label is `'Healthy'` (the last fixed class label). -/
theorem c8_is_healthy_iff (p : Fin 10 → ℚ) :
    ((buildResponse p).is_healthy = true ↔ npArgmax p = 9) ∧
    ((buildResponse p).is_healthy = true ↔ (buildResponse p).disease = "Healthy") := by
  have hih : (buildResponse p).is_healthy = (classAt (npArgmax p) == "Healthy") := rfl
  have hdis : (buildResponse p).disease = classAt (npArgmax p) := rfl
  constructor
  · rw [hih, beq_iff_eq]
    exact classAt_eq_healthy_iff (npArgmax p)
  · rw [hih, hdis, beq_iff_eq]

/-- C9: the top-level `confidence` field equals the arg-max class's
probability times 100 rounded to two decimals, and looking the returned
disease label up in `all_probabilities` yields exactly that same value. -/
theorem c9_confidence_matches_mapping (p : Fin 10 → ℚ) :
    (buildResponse p).confidence = round2 (p (npArgmax p) * 100) ∧
    assocFind (buildResponse p).disease (buildResponse p).all_probabilities =
      some ((buildResponse p).confidence) := by
  have h1 : (buildResponse p).confidence = round2 (p (npArgmax p) * 100) := by
    show round2 (npMax p * 100) = round2 (p (npArgmax p) * 100)
    rw [npMax_eq]
  refine ⟨h1, ?_⟩
  have hdis : (buildResponse p).disease = classAt (npArgmax p) := rfl
  have hprobs : (buildResponse p).all_probabilities =
      List.ofFn fun i : Fin 10 => (classAt i, round2 (p i * 100)) := rfl
  rw [hdis, hprobs, h1, assocFind_classAt (fun i => round2 (p i * 100)) (npArgmax p)]

end TomatoML
